import Mathlib

/-!
Shallow embedding of the roomah repository (Next.js middleware, Supabase
server helpers, and presentational form logic) together with proofs of the
behavioural properties stated about it.

JavaScript strings are modelled as lists of characters (`JStr`); machine
numbers that only ever hold small integers are modelled as `Int`.
External collaborators (the rate limiter, the Supabase auth/profile calls,
`crypto.randomUUID`, `Date.now`) are inputs to the embedded functions, as
they are imported and not defined in the inspected source.  Cookie and CSRF
side effects of the middleware are not part of the response model because no
stated property mentions them.
-/

namespace Roomah

/-- A JavaScript string, as its sequence of characters. -/
abbrev JStr := List Char

/-- `String.prototype.startsWith`: `jsStartsWith s pre` is `s.startsWith(pre)`. -/
def jsStartsWith (s pre : JStr) : Bool :=
  match s, pre with
  | _, [] => true
  | [], _ :: _ => false
  | c :: s, d :: pre => c == d && jsStartsWith s pre

/-- `Array.prototype.includes` on an array of strings. -/
def jsIncludes (l : List JStr) (x : JStr) : Bool :=
  l.any (fun y => y == x)

/-- `URLSearchParams.set`: replace the value of `k` in place (dropping later
duplicates), or append `(k, v)` when `k` is absent. -/
def searchParamsSet : List (JStr × JStr) → JStr → JStr → List (JStr × JStr)
  | [], k, v => [(k, v)]
  | (k', v') :: rest, k, v =>
    if k' = k then (k, v) :: rest.filter (fun p => p.1 ≠ k)
    else (k', v') :: searchParamsSet rest k v

/-- `URLSearchParams.get`: first value bound to `k`, if any. -/
def getParam (q : List (JStr × JStr)) (k : JStr) : Option JStr :=
  (q.find? (fun p => p.1 == k)).map (fun p => p.2)

/-- `Math.ceil(num / den)` for integer `num` and positive integer `den`,
as used for the `Retry-After` computation. -/
def jsMathCeilDiv (num den : Int) : Int :=
  -((-num).fdiv den)

/-- `n.toString()` for an integer-valued JS number. -/
def intToJStr (n : Int) : JStr := (toString n).data

/-! ## middleware (src/middleware.ts)

The file contains two near-duplicate revisions of the middleware function,
separated by a document marker; `middleware` embeds the first (lines 6-197)
and `middlewareV2` the second (lines 209-381).  They differ only in the
branch taken for an onboarding path once onboarding is complete. -/

/-- Result of the external `checkRateLimit` call (imported from
`@/lib/api/rate-limit`, not defined in the inspected source). -/
structure RateLimitResult where
  allowed : Bool
  remaining : Int
  resetTime : Int
deriving DecidableEq

/-- The selected column of a `profiles` row: `registered_at`, possibly SQL
null. -/
structure ProfileRow where
  registered_at : Option Int
deriving DecidableEq

/-- All external effects the middleware consults for one request. -/
structure MwEnv where
  /-- `crypto.randomUUID()` generated at the start of the request. -/
  requestId : JStr
  /-- the rate-limit check outcome for this request. -/
  rl : RateLimitResult
  /-- `Date.now()` during this request. -/
  now : Int
  /-- `supabase.auth.getUser()`: the authenticated user's id, if any. -/
  user : Option JStr
  /-- the `profiles` query result (`maybeSingle`): the row, if one exists. -/
  profile : Option ProfileRow
  /-- whether the Supabase client's cookie `setAll` callback fired during
  this request (a session refresh wrote cookies).  Revision 1's callback
  (lines 69-82) sets cookies on the existing response, preserving its
  headers, so `middleware` does not depend on this flag; revision 2's
  callback (lines 267-282) reassigns `supabaseResponse` to a fresh
  `NextResponse.next({request})`, dropping every header set before. -/
  cookiesRefreshed : Bool
deriving DecidableEq

/-- The request data the middleware reads. -/
structure MwRequest where
  pathname : JStr
  query : List (JStr × JStr)
deriving DecidableEq

/-- A URL being built for a redirect: `request.nextUrl.clone()` with
mutated fields. -/
structure MwUrl where
  pathname : JStr
  query : List (JStr × JStr)
deriving DecidableEq

/-- The responses the middleware can return.  A `redirect` response is a
fresh `NextResponse.redirect(url)`: it carries only its `Location` (the
`url` field here) and none of the headers accumulated on the pass-through
response. -/
inductive MwResponse where
  | next (headers : List (JStr × JStr))
  | json (status : Int) (headers : List (JStr × JStr)) (body : List (JStr × JStr))
  | redirect (url : MwUrl)
deriving DecidableEq

/-- The explicit headers carried by a response.  `NextResponse.redirect`
sets no header beyond the `Location` recorded in its `url` field. -/
def MwResponse.headers : MwResponse → List (JStr × JStr)
  | .next h => h
  | .json _ h _ => h
  | .redirect _ => []

/-- Whether the response is a redirect. -/
def MwResponse.isRedirect : MwResponse → Bool
  | .redirect _ => true
  | _ => false

/-- `const protectedPaths = ['/cari-jodoh', '/dashboard', '/cv-saya',
'/koin-saya', '/riwayat-taaruf']` -/
def protectedPaths : List JStr :=
  ["/cari-jodoh".data, "/dashboard".data, "/cv-saya".data,
   "/koin-saya".data, "/riwayat-taaruf".data]

/-- `const authPaths = ['/login', '/register']` -/
def authPaths : List JStr := ["/login".data, "/register".data]

/-- `protectedPaths.some((path) => pathname.startsWith(path))` -/
def isProtectedPath (pathname : JStr) : Bool :=
  protectedPaths.any (fun path => jsStartsWith pathname path)

/-- `authPaths.includes(pathname)` -/
def isAuthPath (pathname : JStr) : Bool :=
  jsIncludes authPaths pathname

/-- `pathname.startsWith('/onboarding')` -/
def isOnboardingPath (pathname : JStr) : Bool :=
  jsStartsWith pathname "/onboarding".data

/-- `pathname === '/auth/callback'` -/
def isAuthCallback (pathname : JStr) : Bool :=
  pathname == "/auth/callback".data

/-- `profile && profile.registered_at !== null` -/
def hasCompletedOnboarding (env : MwEnv) : Bool :=
  match env.profile with
  | some profile => profile.registered_at.isSome
  | none => false

/-- Routing tail of the first middleware revision (src/middleware.ts lines
127-196), starting from the already-built pass-through response
`supabaseResponse`. -/
def routeV1 (req : MwRequest) (env : MwEnv) (supabaseResponse : MwResponse) :
    MwResponse :=
  let pathname := req.pathname
  if isAuthCallback pathname then supabaseResponse
  else
    match env.user with
    | none =>
      if isProtectedPath pathname then
        .redirect ⟨"/login".data, searchParamsSet req.query "redirectTo".data pathname⟩
      else supabaseResponse
    | some _ =>
      if isAuthPath pathname then
        if hasCompletedOnboarding env then
          .redirect ⟨"/cari-jodoh".data, req.query⟩
        else
          .redirect ⟨"/onboarding/verifikasi".data, req.query⟩
      else if isProtectedPath pathname && !hasCompletedOnboarding env then
        .redirect ⟨"/onboarding/verifikasi".data, req.query⟩
      else if isOnboardingPath pathname && hasCompletedOnboarding env then
        supabaseResponse
      else supabaseResponse

/-- Routing tail of the second middleware revision (src/middleware.ts lines
295-380). -/
def routeV2 (req : MwRequest) (env : MwEnv) (supabaseResponse : MwResponse) :
    MwResponse :=
  let pathname := req.pathname
  if isAuthCallback pathname then supabaseResponse
  else
    match env.user with
    | none =>
      if isProtectedPath pathname then
        .redirect ⟨"/login".data, searchParamsSet req.query "redirectTo".data pathname⟩
      else supabaseResponse
    | some _ =>
      if isAuthPath pathname then
        if !hasCompletedOnboarding env then
          .redirect ⟨"/onboarding/verifikasi".data, req.query⟩
        else
          .redirect ⟨"/cari-jodoh".data, req.query⟩
      else if isProtectedPath pathname && !hasCompletedOnboarding env then
        .redirect ⟨"/onboarding/verifikasi".data, req.query⟩
      else if isOnboardingPath pathname && hasCompletedOnboarding env then
        .redirect ⟨"/cari-jodoh".data, req.query⟩
      else supabaseResponse

/-- The headers the 429 response is created with (src/middleware.ts lines
37-44).  Both `Math.ceil((resetTime - Date.now()) / 1000)` computations are
evaluated at the same modelled instant `env.now`. -/
def throttledHeaders (env : MwEnv) : List (JStr × JStr) :=
  [("Content-Type".data, "application/json".data),
   ("Retry-After".data, intToJStr (jsMathCeilDiv (env.rl.resetTime - env.now) 1000)),
   ("X-RateLimit-Limit".data, "100".data),
   ("X-RateLimit-Remaining".data, intToJStr env.rl.remaining),
   ("X-RateLimit-Reset".data, intToJStr env.rl.resetTime),
   ("X-Request-ID".data, env.requestId)]

/-- The JSON body of the 429 response (src/middleware.ts lines 31-34). -/
def throttledBody (env : MwEnv) : List (JStr × JStr) :=
  [("error".data, "Too many requests".data),
   ("retryAfter".data, intToJStr (jsMathCeilDiv (env.rl.resetTime - env.now) 1000))]

/-- First revision of `middleware` (src/middleware.ts lines 6-197).  The
pass-through response starts with the `X-Request-ID` header; on allowed API
requests the three rate-limit headers are appended to it. -/
def middleware (req : MwRequest) (env : MwEnv) : MwResponse :=
  let supabaseResponse : MwResponse :=
    .next [("X-Request-ID".data, env.requestId)]
  if jsStartsWith req.pathname "/api/".data then
    if !env.rl.allowed then
      .json 429 (throttledHeaders env) (throttledBody env)
    else
      routeV1 req env
        (.next [("X-Request-ID".data, env.requestId),
                ("X-RateLimit-Limit".data, "100".data),
                ("X-RateLimit-Remaining".data, intToJStr env.rl.remaining),
                ("X-RateLimit-Reset".data, intToJStr env.rl.resetTime)])
  else routeV1 req env supabaseResponse

/-- Second revision of `middleware` (src/middleware.ts lines 209-381).  Its
cookie callback (lines 267-282) reassigns `supabaseResponse` to a fresh
`NextResponse.next({request})` whenever the auth client writes refreshed
session cookies during `getUser()`; the fresh response carries none of the
headers set on lines 218 and 248-250, so once `env.cookiesRefreshed` holds
the pass-through response reaching the routing tail has no headers.  The
429 response is returned before the auth client is created and cannot be
affected. -/
def middlewareV2 (req : MwRequest) (env : MwEnv) : MwResponse :=
  if jsStartsWith req.pathname "/api/".data then
    if !env.rl.allowed then
      .json 429 (throttledHeaders env) (throttledBody env)
    else
      routeV2 req env
        (if env.cookiesRefreshed then .next []
         else
           .next [("X-Request-ID".data, env.requestId),
                  ("X-RateLimit-Limit".data, "100".data),
                  ("X-RateLimit-Remaining".data, intToJStr env.rl.remaining),
                  ("X-RateLimit-Reset".data, intToJStr env.rl.resetTime)])
  else
    routeV2 req env
      (if env.cookiesRefreshed then .next []
       else .next [("X-Request-ID".data, env.requestId)])

/-! ## Supabase server helpers (src/unnamed/part_000 .. part_002)

`getCurrentUser` and `getCurrentProfile` await remote calls through the
Supabase SDK; an awaited call either yields a value or throws.  The embedded
functions take those outcomes as arguments. -/

/-- Outcome of an awaited remote call: a returned value, or a thrown
exception (caught by the surrounding `try`). -/
inductive JsCall (α : Type) where
  | ok (value : α)
  | thrown
deriving DecidableEq

/-- The destructured result of `supabase.auth.getUser()`: `data.user` and
`error`, each possibly null. -/
structure GetUserData where
  user : Option JStr
  error : Option JStr
deriving DecidableEq

/-- A full `profiles` row as returned by `select('*')`, kept as an opaque
bag of column values. -/
abbrev ProfileData := List (JStr × JStr)

/-- The destructured result of the `profiles` `.single()` query: `data` and
`error`, each possibly null. -/
structure ProfileQueryResult where
  data : Option ProfileData
  error : Option JStr
deriving DecidableEq

/-- `getCurrentUser` (part_001 lines 76-95): returns the user, or null when
the call returned an error object or threw. -/
def getCurrentUser (call : JsCall GetUserData) : Option JStr :=
  match call with
  | .thrown => none
  | .ok d =>
    match d.error with
    | some _ => none
    | none => d.user

/-- `getCurrentProfile` (part_001 lines 107-130): null without a user,
otherwise the profile row, or null when the query returned an error object
or threw. -/
def getCurrentProfile (authCall : JsCall GetUserData)
    (profileCall : JsCall ProfileQueryResult) : Option ProfileData :=
  match getCurrentUser authCall with
  | none => none
  | some _ =>
    match profileCall with
    | .thrown => none
    | .ok r =>
      match r.error with
      | some _ => none
      | none => r.data

/-- The two environment variables `createAdminClient` reads.  A variable can
be unset (`none`) or set to any string, including the empty one. -/
structure AdminEnv where
  supabaseUrl : Option JStr
  serviceRoleKey : Option JStr
deriving DecidableEq

/-- JavaScript falsiness of `process.env.X` as a string-or-undefined value:
`!x` is true exactly when the variable is unset or set to `''`. -/
def jsFalsyStr (x : Option JStr) : Bool :=
  match x with
  | none => true
  | some s => s == []

/-- The client value `createServerClient(supabaseUrl, serviceRoleKey, ...)`
is invoked with on the non-throwing path. -/
structure AdminClient where
  url : JStr
  key : JStr
deriving DecidableEq

/-- `createAdminClient` (part_001 lines 52-70): throws
`'Missing Supabase environment variables'` when `!supabaseUrl ||
!serviceRoleKey`, else returns the client. -/
def createAdminClient (env : AdminEnv) : Except JStr AdminClient :=
  if jsFalsyStr env.supabaseUrl || jsFalsyStr env.serviceRoleKey then
    .error "Missing Supabase environment variables".data
  else
    .ok ⟨env.supabaseUrl.getD [], env.serviceRoleKey.getD []⟩

/-- Whether `createAdminClient` throws on the given environment. -/
def adminClientThrows (env : AdminEnv) : Bool :=
  match createAdminClient env with
  | .error _ => true
  | .ok _ => false

/-! ## Pagination (src/unnamed/part_003) -/

/-- The integers of `[s, s+1, ..., e]` (empty when `e < s`): the pages
pushed by the `for (let i = start; i <= end; i++)` loop. -/
def intRange (s e : Int) : List Int :=
  (List.range (e + 1 - s).toNat).map (fun i : Nat => s + (i : Int))

/-- `const maxVisible = 5` (part_003 line 47). -/
def maxVisible : Int := 5

/-- `let start = Math.max(1, currentPage - Math.floor(maxVisible / 2))`
(part_003 line 48); `Math.floor(5 / 2)` is the integer division `5 / 2`. -/
def rpStart0 (currentPage : Int) : Int :=
  max 1 (currentPage - maxVisible / 2)

/-- `const end = Math.min(totalPages, start + maxVisible - 1)` (part_003
line 49). -/
def rpEnd (totalPages currentPage : Int) : Int :=
  min totalPages (rpStart0 currentPage + maxVisible - 1)

/-- The reassignment of `start` when the window is short (part_003 lines
51-53). -/
def rpStart (totalPages currentPage : Int) : Int :=
  if rpEnd totalPages currentPage - rpStart0 currentPage < maxVisible - 1 then
    max 1 (rpEnd totalPages currentPage - maxVisible + 1)
  else rpStart0 currentPage

/-- `renderPageNumbers` (part_003 lines 45-72), keeping only the page number
of each rendered button. -/
def renderPageNumbers (totalPages currentPage : Int) : List Int :=
  intRange (rpStart totalPages currentPage) (rpEnd totalPages currentPage)

/-! ## Five-question verification form (src/unnamed/part_004) -/

/-- A value a `FiveQData` field can hold: the radio inputs submit the
strings `"true"` / `"false"`, but the schema could also yield booleans. -/
inductive JsVal where
  | bool (b : Bool)
  | str (s : JStr)
deriving DecidableEq

/-- `toBool` (part_004 line 291): `v === true || v === 'true'`. -/
def toBool (v : JsVal) : Bool :=
  v == .bool true || v == .str "true".data

/-- The five answers of the form. -/
structure FiveQData where
  q1 : JsVal
  q2 : JsVal
  q3 : JsVal
  q4 : JsVal
  q5 : JsVal
deriving DecidableEq

/-- `Object.values(data)` for a `FiveQData` object, in declaration order. -/
def fiveQValues (d : FiveQData) : List JsVal :=
  [d.q1, d.q2, d.q3, d.q4, d.q5]

/-- `countNegativeAnswers` (part_004 lines 293-295). -/
def countNegativeAnswers (d : FiveQData) : Nat :=
  ((fiveQValues d).filter (fun v => !toBool v)).length

/-- The normalised boolean payload built in `onSubmit`. -/
structure Payload where
  q1 : Bool
  q2 : Bool
  q3 : Bool
  q4 : Bool
  q5 : Bool
deriving DecidableEq

/-- The payload normalisation of `onSubmit` (part_004 lines 301-307). -/
def normalizePayload (d : FiveQData) : Payload :=
  ⟨toBool d.q1, toBool d.q2, toBool d.q3, toBool d.q4, toBool d.q5⟩

/-- An argument passed to `saveVerification`: the five booleans, plus the
`committed` flag when one is spread in. -/
structure SaveCall where
  payload : Payload
  committed : Option Bool
deriving DecidableEq

/-- What `onSubmit` does before any modal interaction: either it calls
`saveVerification` immediately, or it stores the pending payload and shows
the modal without saving. -/
inductive SubmitStep where
  | saved (call : SaveCall)
  | modalShown (pending : Payload) (negativeCount : Nat)
deriving DecidableEq

/-- `onSubmit` (part_004 lines 297-337), up to the first save or modal. -/
def onSubmit (raw : FiveQData) : SubmitStep :=
  let payload := normalizePayload raw
  let negatives := countNegativeAnswers raw
  if negatives > 0 then
    .modalShown payload negatives
  else
    .saved ⟨payload, none⟩

/-- `handleModalContinue` (part_004 lines 345-378): the save call made after
the user confirms, `{...pendingData, committed: true}`. -/
def handleModalContinue (pendingData : Payload) : SaveCall :=
  ⟨pendingData, some true⟩

/-! ## calcAge (src/features/auth/components/cv-onboarding-form.tsx 23-32)

`calcAge` declares `const age = ...` and later executes `age--` when the
birthday has not yet occurred in the current year; in strict-mode JavaScript
an assignment to a `const` binding throws a `TypeError`, so the embedding
returns an exception on that path. -/

/-- A JS `Date` as its components: `getFullYear`, `getMonth` (0-based),
`getDate`. -/
structure JsDate where
  year : Int
  month : Int
  day : Int
deriving DecidableEq

/-- The `birthDate` argument after `new Date(birthDate)`: absent, a string
whose parse is `NaN`, or a valid date. -/
inductive BirthDateInput where
  | absent
  | invalid
  | valid (d : JsDate)
deriving DecidableEq

/-- The runtime error class thrown by `age--` on a `const` binding. -/
inductive JsError where
  | typeError
deriving DecidableEq

/-- `calcAge`, with the current date `now` as an explicit input. -/
def calcAge (birthDate : BirthDateInput) (now : JsDate) :
    Except JsError (Option Int) :=
  match birthDate with
  | .absent => .ok none
  | .invalid => .ok none
  | .valid b =>
    let age := now.year - b.year
    let m := now.month - b.month
    if m < 0 ∨ (m = 0 ∧ now.day < b.day) then
      .error .typeError
    else
      .ok (if age ≥ 0 then some age else none)

/-! ## General lemmas about the JS string model -/

theorem jsStartsWith_nil (s : JStr) : jsStartsWith s [] = true := by
  cases s <;> rfl

/-- Two prefixes of the same string are comparable. -/
theorem jsStartsWith_comparable (s : JStr) :
    ∀ a b : JStr, jsStartsWith s a = true → jsStartsWith s b = true →
      jsStartsWith a b = true ∨ jsStartsWith b a = true := by
  induction s with
  | nil =>
    intro a b ha hb
    cases a with
    | nil => exact Or.inr (jsStartsWith_nil b)
    | cons x xs => simp [jsStartsWith] at ha
  | cons c s ih =>
    intro a b ha hb
    cases a with
    | nil => exact Or.inr (jsStartsWith_nil b)
    | cons x xs =>
      cases b with
      | nil => exact Or.inl (jsStartsWith_nil (x :: xs))
      | cons y ys =>
        simp only [jsStartsWith, Bool.and_eq_true, beq_iff_eq] at ha hb
        obtain ⟨hx, ha⟩ := ha
        obtain ⟨hy, hb⟩ := hb
        subst hx
        subst hy
        rcases ih xs ys ha hb with h | h
        · exact Or.inl (by simp [jsStartsWith, h])
        · exact Or.inr (by simp [jsStartsWith, h])

/-- A string cannot start with each of two mutually non-prefix strings. -/
theorem jsStartsWith_excl (s a b : JStr)
    (hab : jsStartsWith a b = false) (hba : jsStartsWith b a = false)
    (h1 : jsStartsWith s a = true) (h2 : jsStartsWith s b = true) : False := by
  rcases jsStartsWith_comparable s a b h1 h2 with h | h
  · rw [h] at hab; cases hab
  · rw [h] at hba; cases hba

/-- Setting a query parameter makes its lookup return the written value. -/
theorem getParam_searchParamsSet (q : List (JStr × JStr)) (k v : JStr) :
    getParam (searchParamsSet q k v) k = some v := by
  induction q with
  | nil => simp [searchParamsSet, getParam]
  | cons p rest ih =>
    obtain ⟨k', v'⟩ := p
    by_cases h : k' = k
    · subst h; simp [searchParamsSet, getParam]
    · simpa [searchParamsSet, h, getParam] using ih

/-! ## Route-classification lemmas -/

theorem isAuthPath_iff (p : JStr) :
    isAuthPath p = true ↔ p = "/login".data ∨ p = "/register".data := by
  simp only [isAuthPath, jsIncludes, authPaths, List.any_cons, List.any_nil,
    Bool.or_eq_true, Bool.or_eq_false_iff, beq_iff_eq]
  constructor
  · rintro (h | h | h) <;> simp_all
  · rintro (h | h) <;> simp_all

theorem isAuthCallback_iff (p : JStr) :
    isAuthCallback p = true ↔ p = "/auth/callback".data := by
  simp [isAuthCallback]

theorem isProtectedPath_not_api (p : JStr) (hp : isProtectedPath p = true) :
    jsStartsWith p "/api/".data = false := by
  cases hapi : jsStartsWith p "/api/".data with
  | false => rfl
  | true =>
    exfalso
    simp only [isProtectedPath, protectedPaths, List.any_cons, List.any_nil,
      Bool.or_eq_true] at hp
    rcases hp with h | h | h | h | h | h
    · exact jsStartsWith_excl p _ _ (by decide) (by decide) h hapi
    · exact jsStartsWith_excl p _ _ (by decide) (by decide) h hapi
    · exact jsStartsWith_excl p _ _ (by decide) (by decide) h hapi
    · exact jsStartsWith_excl p _ _ (by decide) (by decide) h hapi
    · exact jsStartsWith_excl p _ _ (by decide) (by decide) h hapi
    · cases h

theorem api_not_protected (p : JStr) (h : jsStartsWith p "/api/".data = true) :
    isProtectedPath p = false := by
  cases hp : isProtectedPath p with
  | false => rfl
  | true => rw [isProtectedPath_not_api p hp] at h; cases h

theorem api_not_auth (p : JStr) (h : jsStartsWith p "/api/".data = true) :
    isAuthPath p = false := by
  cases hp : isAuthPath p with
  | false => rfl
  | true =>
    rcases (isAuthPath_iff p).mp hp with rfl | rfl
    · exact absurd h (by decide)
    · exact absurd h (by decide)

theorem api_not_onboarding (p : JStr) (h : jsStartsWith p "/api/".data = true) :
    isOnboardingPath p = false := by
  cases hp : isOnboardingPath p with
  | false => rfl
  | true =>
    exact absurd (jsStartsWith_excl p _ _ (by decide) (by decide) hp h) (by simp)

theorem api_not_callback (p : JStr) (h : jsStartsWith p "/api/".data = true) :
    isAuthCallback p = false := by
  cases hp : isAuthCallback p with
  | false => rfl
  | true =>
    rw [(isAuthCallback_iff p).mp hp] at h
    exact absurd h (by decide)

theorem protected_not_callback (p : JStr) (hp : isProtectedPath p = true) :
    isAuthCallback p = false := by
  cases hc : isAuthCallback p with
  | false => rfl
  | true =>
    rw [(isAuthCallback_iff p).mp hc] at hp
    exact absurd hp (by decide)

theorem auth_not_api (p : JStr) (hp : isAuthPath p = true) :
    jsStartsWith p "/api/".data = false := by
  rcases (isAuthPath_iff p).mp hp with rfl | rfl <;> decide

theorem auth_not_callback (p : JStr) (hp : isAuthPath p = true) :
    isAuthCallback p = false := by
  rcases (isAuthPath_iff p).mp hp with rfl | rfl <;> decide

/-- On an API path neither routing tail ever leaves the pass-through
response. -/
theorem routeV1_api_pass (req : MwRequest) (env : MwEnv) (sb : MwResponse)
    (h : jsStartsWith req.pathname "/api/".data = true) :
    routeV1 req env sb = sb := by
  unfold routeV1
  cases env.user with
  | none => simp [api_not_callback _ h, api_not_protected _ h]
  | some u =>
    simp [api_not_callback _ h, api_not_auth _ h, api_not_protected _ h,
      api_not_onboarding _ h]

theorem routeV2_api_pass (req : MwRequest) (env : MwEnv) (sb : MwResponse)
    (h : jsStartsWith req.pathname "/api/".data = true) :
    routeV2 req env sb = sb := by
  unfold routeV2
  cases env.user with
  | none => simp [api_not_callback _ h, api_not_protected _ h]
  | some u =>
    simp [api_not_callback _ h, api_not_auth _ h, api_not_protected _ h,
      api_not_onboarding _ h]

/-! ## Claim theorems -/

/-- C1: an unauthenticated request to a protected path is answered, by both
middleware revisions, with a redirect to `/login` whose `redirectTo` query
parameter equals the original request path. -/
theorem c1_unauth_protected_redirect (req : MwRequest) (env : MwEnv)
    (hp : isProtectedPath req.pathname = true) (hu : env.user = none) :
    middleware req env =
      .redirect ⟨"/login".data, searchParamsSet req.query "redirectTo".data req.pathname⟩ ∧
    middlewareV2 req env =
      .redirect ⟨"/login".data, searchParamsSet req.query "redirectTo".data req.pathname⟩ ∧
    getParam (searchParamsSet req.query "redirectTo".data req.pathname)
      "redirectTo".data = some req.pathname := by
  have hapi := isProtectedPath_not_api _ hp
  have hcb := protected_not_callback _ hp
  refine ⟨?_, ?_, getParam_searchParamsSet _ _ _⟩
  · unfold middleware routeV1
    cases henv : env.user with
    | none => simp [hapi, hcb, hp]
    | some u => rw [henv] at hu; cases hu
  · unfold middlewareV2 routeV2
    cases henv : env.user with
    | none => simp [hapi, hcb, hp]
    | some u => rw [henv] at hu; cases hu

theorem c1_unauth_protected_redirect_witness :
    isProtectedPath "/dashboard/settings".data = true ∧
    (⟨"rid1".data, ⟨true, 99, 1000⟩, 0, none, none, false⟩ : MwEnv).user = none ∧
    middleware ⟨"/dashboard/settings".data, []⟩
        ⟨"rid1".data, ⟨true, 99, 1000⟩, 0, none, none, false⟩ =
      .redirect ⟨"/login".data,
        searchParamsSet [] "redirectTo".data "/dashboard/settings".data⟩ :=
  ⟨by decide, rfl,
    (c1_unauth_protected_redirect ⟨"/dashboard/settings".data, []⟩
      ⟨"rid1".data, ⟨true, 99, 1000⟩, 0, none, none, false⟩ (by decide) rfl).1⟩

/-- C2 counterexample: in revision 2, when the session-cookie refresh has
replaced the pass-through response, an allowed API request is answered by a
response carrying no headers at all — in particular none of the
`X-RateLimit-*` headers the claim asserts. -/
theorem c2_counterexample :
    jsStartsWith "/api/users".data "/api/".data = true ∧
    (⟨"rid8".data, ⟨true, 42, 60000⟩, 1000, none, none, true⟩ : MwEnv).rl.allowed
      = true ∧
    (middlewareV2 ⟨"/api/users".data, []⟩
      ⟨"rid8".data, ⟨true, 42, 60000⟩, 1000, none, none, true⟩).headers = [] := by
  decide

/-- C2 amended: a throttled API request gets, from both middleware
revisions, a 429 JSON response with a `Retry-After` header and a body
holding exactly the fields `error` and `retryAfter` (this response is built
before the auth client exists and is never affected by cookie refreshes).
An allowed API request gets the pass-through response carrying the three
`X-RateLimit-*` headers from revision 1 always, and from revision 2 only
when no session-cookie refresh occurred; when revision 2's cookie callback
replaced the pass-through response, the allowed API response carries no
headers. -/
theorem c2_rate_limit_responses (req : MwRequest) (env : MwEnv)
    (hapi : jsStartsWith req.pathname "/api/".data = true) :
    (env.rl.allowed = false →
      middleware req env = .json 429 (throttledHeaders env) (throttledBody env) ∧
      middlewareV2 req env = .json 429 (throttledHeaders env) (throttledBody env) ∧
      (throttledHeaders env).map Prod.fst =
        ["Content-Type".data, "Retry-After".data, "X-RateLimit-Limit".data,
         "X-RateLimit-Remaining".data, "X-RateLimit-Reset".data,
         "X-Request-ID".data] ∧
      (throttledBody env).map Prod.fst = ["error".data, "retryAfter".data]) ∧
    (env.rl.allowed = true →
      middleware req env =
        .next [("X-Request-ID".data, env.requestId),
               ("X-RateLimit-Limit".data, "100".data),
               ("X-RateLimit-Remaining".data, intToJStr env.rl.remaining),
               ("X-RateLimit-Reset".data, intToJStr env.rl.resetTime)] ∧
      (env.cookiesRefreshed = false →
        middlewareV2 req env =
          .next [("X-Request-ID".data, env.requestId),
                 ("X-RateLimit-Limit".data, "100".data),
                 ("X-RateLimit-Remaining".data, intToJStr env.rl.remaining),
                 ("X-RateLimit-Reset".data, intToJStr env.rl.resetTime)]) ∧
      (env.cookiesRefreshed = true →
        middlewareV2 req env = .next [])) := by
  constructor
  · intro hblock
    refine ⟨?_, ?_, rfl, rfl⟩
    · unfold middleware; simp [hapi, hblock]
    · unfold middlewareV2; simp [hapi, hblock]
  · intro hallow
    refine ⟨?_, ?_, ?_⟩
    · unfold middleware
      simp only [hapi, hallow, if_true, Bool.not_true, Bool.false_eq_true, if_false]
      exact routeV1_api_pass req env _ hapi
    · intro hrf
      unfold middlewareV2
      simp only [hapi, hallow, hrf, if_true, Bool.not_true, Bool.false_eq_true,
        if_false]
      exact routeV2_api_pass req env _ hapi
    · intro hrf
      unfold middlewareV2
      simp only [hapi, hallow, hrf, if_true, Bool.not_true, Bool.false_eq_true,
        if_false]
      exact routeV2_api_pass req env _ hapi

theorem c2_rate_limit_responses_witness :
    jsStartsWith "/api/users".data "/api/".data = true ∧
    middleware ⟨"/api/users".data, []⟩
        ⟨"rid2".data, ⟨false, 0, 60000⟩, 1000, none, none, false⟩ =
      .json 429
        (throttledHeaders ⟨"rid2".data, ⟨false, 0, 60000⟩, 1000, none, none, false⟩)
        (throttledBody ⟨"rid2".data, ⟨false, 0, 60000⟩, 1000, none, none, false⟩) ∧
    middleware ⟨"/api/users".data, []⟩
        ⟨"rid2".data, ⟨true, 42, 60000⟩, 1000, none, none, false⟩ =
      .next [("X-Request-ID".data, "rid2".data),
             ("X-RateLimit-Limit".data, "100".data),
             ("X-RateLimit-Remaining".data, intToJStr 42),
             ("X-RateLimit-Reset".data, intToJStr 60000)] ∧
    middlewareV2 ⟨"/api/users".data, []⟩
        ⟨"rid2".data, ⟨true, 42, 60000⟩, 1000, none, none, false⟩ =
      .next [("X-Request-ID".data, "rid2".data),
             ("X-RateLimit-Limit".data, "100".data),
             ("X-RateLimit-Remaining".data, intToJStr 42),
             ("X-RateLimit-Reset".data, intToJStr 60000)] ∧
    middlewareV2 ⟨"/api/users".data, []⟩
        ⟨"rid2".data, ⟨true, 42, 60000⟩, 1000, none, none, true⟩ = .next [] :=
  ⟨by decide,
    ((c2_rate_limit_responses ⟨"/api/users".data, []⟩
      ⟨"rid2".data, ⟨false, 0, 60000⟩, 1000, none, none, false⟩ (by decide)).1 rfl).1,
    ((c2_rate_limit_responses ⟨"/api/users".data, []⟩
      ⟨"rid2".data, ⟨true, 42, 60000⟩, 1000, none, none, false⟩ (by decide)).2 rfl).1,
    ((c2_rate_limit_responses ⟨"/api/users".data, []⟩
      ⟨"rid2".data, ⟨true, 42, 60000⟩, 1000, none, none, false⟩ (by decide)).2 rfl).2.1 rfl,
    ((c2_rate_limit_responses ⟨"/api/users".data, []⟩
      ⟨"rid2".data, ⟨true, 42, 60000⟩, 1000, none, none, true⟩ (by decide)).2 rfl).2.2 rfl⟩

/-- C3 counterexample: `/login/x` starts with the listed auth entry
`/login`, yet it is not classified as an auth route, and an authenticated,
fully onboarded user requesting it is not redirected (prefix-based
classification of auth routes would demand a redirect to the browse page). -/
theorem c3_counterexample :
    jsStartsWith "/login/x".data "/login".data = true ∧
    isAuthPath "/login/x".data = false ∧
    (middleware ⟨"/login/x".data, []⟩
      ⟨"rid3".data, ⟨true, 99, 0⟩, 0, some "u1".data, some ⟨some 1⟩, false⟩).isRedirect
      = false := by decide

/-- C3 amended: protected and onboarding routes are classified by path
prefix, but auth routes by exact membership in `['/login', '/register']`
and the auth-callback route by exact equality with `/auth/callback`; a
request classified as the auth-callback route is never redirected by either
middleware revision, whatever the authentication or onboarding state. -/
theorem c3_route_classification :
    (∀ p, isProtectedPath p = true ↔
      ∃ q ∈ protectedPaths, jsStartsWith p q = true) ∧
    (∀ p, isAuthPath p = true ↔ p = "/login".data ∨ p = "/register".data) ∧
    (∀ p, isOnboardingPath p = true ↔ jsStartsWith p "/onboarding".data = true) ∧
    (∀ p, isAuthCallback p = true ↔ p = "/auth/callback".data) ∧
    (∀ (req : MwRequest) (env : MwEnv), isAuthCallback req.pathname = true →
      (middleware req env).isRedirect = false ∧
      (middlewareV2 req env).isRedirect = false) := by
  refine ⟨?_, isAuthPath_iff, fun p => Iff.rfl, isAuthCallback_iff, ?_⟩
  · intro p
    simp [isProtectedPath, List.any_eq_true]
  · intro req env hcb
    obtain ⟨p, q⟩ := req
    simp only at hcb
    rw [isAuthCallback_iff] at hcb
    subst hcb
    have hapi : jsStartsWith "/auth/callback".data "/api/".data = false := by decide
    have hc : isAuthCallback "/auth/callback".data = true := by decide
    constructor
    · unfold middleware routeV1
      cases env.user <;> simp [hapi, hc, MwResponse.isRedirect]
    · unfold middlewareV2 routeV2
      cases env.user <;> cases hcr : env.cookiesRefreshed <;>
        simp [hapi, hc, hcr, MwResponse.isRedirect]

theorem c3_route_classification_witness :
    isProtectedPath "/cv-saya/x".data = true ∧
    isAuthPath "/register".data = true ∧
    isOnboardingPath "/onboarding/cv".data = true ∧
    isAuthCallback "/auth/callback".data = true ∧
    (middleware ⟨"/auth/callback".data, []⟩
      ⟨"rid4".data, ⟨true, 99, 0⟩, 0, some "u1".data, none, false⟩).isRedirect = false :=
  ⟨(c3_route_classification.1 "/cv-saya/x".data).mpr
      ⟨"/cv-saya".data, by decide, by decide⟩,
    (c3_route_classification.2.1 "/register".data).mpr (Or.inr rfl),
    (c3_route_classification.2.2.1 "/onboarding/cv".data).mpr (by decide),
    (c3_route_classification.2.2.2.1 "/auth/callback".data).mpr rfl,
    (c3_route_classification.2.2.2.2 ⟨"/auth/callback".data, []⟩
      ⟨"rid4".data, ⟨true, 99, 0⟩, 0, some "u1".data, none, false⟩ (by decide)).1⟩

/-- C4: an authenticated user requesting an auth path (`/login` or
`/register`) is redirected by both middleware revisions to `/cari-jodoh`
when a profile row exists with non-null `registered_at`, and to
`/onboarding/verifikasi` otherwise; the completion flag holds exactly when
such a row exists. -/
theorem c4_auth_path_redirects (req : MwRequest) (env : MwEnv) (u : JStr)
    (hu : env.user = some u) (ha : isAuthPath req.pathname = true) :
    (hasCompletedOnboarding env = true →
      middleware req env = .redirect ⟨"/cari-jodoh".data, req.query⟩ ∧
      middlewareV2 req env = .redirect ⟨"/cari-jodoh".data, req.query⟩) ∧
    (hasCompletedOnboarding env = false →
      middleware req env = .redirect ⟨"/onboarding/verifikasi".data, req.query⟩ ∧
      middlewareV2 req env = .redirect ⟨"/onboarding/verifikasi".data, req.query⟩) ∧
    (hasCompletedOnboarding env = true ↔
      ∃ pr t, env.profile = some pr ∧ pr.registered_at = some t) := by
  have hapi := auth_not_api _ ha
  have hcb := auth_not_callback _ ha
  refine ⟨?_, ?_, ?_⟩
  · intro hdone
    constructor
    · unfold middleware routeV1
      cases henv : env.user with
      | none => rw [henv] at hu; cases hu
      | some v => simp [hapi, hcb, ha, hdone]
    · unfold middlewareV2 routeV2
      cases henv : env.user with
      | none => rw [henv] at hu; cases hu
      | some v => simp [hapi, hcb, ha, hdone]
  · intro hnot
    constructor
    · unfold middleware routeV1
      cases henv : env.user with
      | none => rw [henv] at hu; cases hu
      | some v => simp [hapi, hcb, ha, hnot]
    · unfold middlewareV2 routeV2
      cases henv : env.user with
      | none => rw [henv] at hu; cases hu
      | some v => simp [hapi, hcb, ha, hnot]
  · unfold hasCompletedOnboarding
    cases env.profile with
    | none => simp
    | some pr =>
      cases hreg : pr.registered_at with
      | none => simp [hreg]
      | some t => simp [hreg]

theorem c4_auth_path_redirects_witness :
    (⟨"rid5".data, ⟨true, 99, 0⟩, 0, some "u2".data, some ⟨some 7⟩, false⟩ : MwEnv).user
      = some "u2".data ∧
    isAuthPath "/login".data = true ∧
    hasCompletedOnboarding
      ⟨"rid5".data, ⟨true, 99, 0⟩, 0, some "u2".data, some ⟨some 7⟩, false⟩ = true ∧
    middleware ⟨"/login".data, [("a".data, "b".data)]⟩
        ⟨"rid5".data, ⟨true, 99, 0⟩, 0, some "u2".data, some ⟨some 7⟩, false⟩ =
      .redirect ⟨"/cari-jodoh".data, [("a".data, "b".data)]⟩ ∧
    middleware ⟨"/login".data, []⟩
        ⟨"rid5".data, ⟨true, 99, 0⟩, 0, some "u2".data, none, false⟩ =
      .redirect ⟨"/onboarding/verifikasi".data, []⟩ :=
  ⟨rfl, by decide, rfl,
    ((c4_auth_path_redirects ⟨"/login".data, [("a".data, "b".data)]⟩
      ⟨"rid5".data, ⟨true, 99, 0⟩, 0, some "u2".data, some ⟨some 7⟩, false⟩
      "u2".data rfl (by decide)).1 rfl).1,
    ((c4_auth_path_redirects ⟨"/login".data, []⟩
      ⟨"rid5".data, ⟨true, 99, 0⟩, 0, some "u2".data, none, false⟩
      "u2".data rfl (by decide)).2.1 rfl).1⟩

/-- Each routing tail either returns the pass-through response unchanged or
builds a fresh redirect. -/
theorem routeV1_pass_or_redirect (req : MwRequest) (env : MwEnv)
    (sb : MwResponse) :
    routeV1 req env sb = sb ∨ ∃ u, routeV1 req env sb = .redirect u := by
  unfold routeV1
  cases env.user with
  | none =>
    by_cases h1 : isAuthCallback req.pathname = true
    · simp [h1]
    · by_cases h2 : isProtectedPath req.pathname = true <;> simp [h1, h2]
  | some u =>
    by_cases h1 : isAuthCallback req.pathname = true
    · simp [h1]
    · by_cases h2 : isAuthPath req.pathname = true
      · by_cases h3 : hasCompletedOnboarding env = true <;> simp [h1, h2, h3]
      · by_cases h3 : isProtectedPath req.pathname = true <;>
          by_cases h4 : hasCompletedOnboarding env = true <;>
          by_cases h5 : isOnboardingPath req.pathname = true <;>
          simp [h1, h2, h3, h4, h5]

theorem routeV2_pass_or_redirect (req : MwRequest) (env : MwEnv)
    (sb : MwResponse) :
    routeV2 req env sb = sb ∨ ∃ u, routeV2 req env sb = .redirect u := by
  unfold routeV2
  cases env.user with
  | none =>
    by_cases h1 : isAuthCallback req.pathname = true
    · simp [h1]
    · by_cases h2 : isProtectedPath req.pathname = true <;> simp [h1, h2]
  | some u =>
    by_cases h1 : isAuthCallback req.pathname = true
    · simp [h1]
    · by_cases h2 : isAuthPath req.pathname = true
      · by_cases h3 : hasCompletedOnboarding env = true <;> simp [h1, h2, h3]
      · by_cases h3 : isProtectedPath req.pathname = true <;>
          by_cases h4 : hasCompletedOnboarding env = true <;>
          by_cases h5 : isOnboardingPath req.pathname = true <;>
          simp [h1, h2, h3, h4, h5]

/-- C5 counterexample: the login redirect for an unauthenticated request to
`/dashboard` carries no `X-Request-ID` header at all. -/
theorem c5_counterexample :
    (middleware ⟨"/dashboard".data, []⟩
      ⟨"rid6".data, ⟨true, 99, 0⟩, 0, none, none, false⟩).isRedirect = true ∧
    ("X-Request-ID".data, "rid6".data) ∉
      (middleware ⟨"/dashboard".data, []⟩
        ⟨"rid6".data, ⟨true, 99, 0⟩, 0, none, none, false⟩).headers := by decide

/-- C5 amended: every non-redirect response of middleware revision 1
carries the `X-Request-ID` header with the request's generated identifier,
and redirect responses carry no `X-Request-ID` header; revision 2 behaves
the same as long as no session-cookie refresh occurred, but once its cookie
callback has replaced the pass-through response, the returned response is a
redirect, the throttled 429 response (which keeps the header), or the fresh
pass-through response carrying no headers at all. -/
theorem c5_request_id_header (req : MwRequest) (env : MwEnv) :
    ((middleware req env).isRedirect = false →
      ("X-Request-ID".data, env.requestId) ∈ (middleware req env).headers) ∧
    ((middleware req env).isRedirect = true →
      ("X-Request-ID".data, env.requestId) ∉ (middleware req env).headers) ∧
    (env.cookiesRefreshed = false →
      ((middlewareV2 req env).isRedirect = false →
        ("X-Request-ID".data, env.requestId) ∈ (middlewareV2 req env).headers) ∧
      ((middlewareV2 req env).isRedirect = true →
        ("X-Request-ID".data, env.requestId) ∉ (middlewareV2 req env).headers)) ∧
    (env.cookiesRefreshed = true →
      (middlewareV2 req env).isRedirect = true ∨
      middlewareV2 req env = .json 429 (throttledHeaders env) (throttledBody env) ∨
      middlewareV2 req env = .next []) := by
  have hmain : ∀ (mw : MwResponse),
      (∃ h, mw = .next h ∧ ("X-Request-ID".data, env.requestId) ∈ h) ∨
      mw = .json 429 (throttledHeaders env) (throttledBody env) ∨
      (∃ u, mw = .redirect u) →
      (mw.isRedirect = false →
        ("X-Request-ID".data, env.requestId) ∈ mw.headers) ∧
      (mw.isRedirect = true →
        ("X-Request-ID".data, env.requestId) ∉ mw.headers) := by
    rintro mw (⟨h, rfl, hmem⟩ | rfl | ⟨u, rfl⟩)
    · exact ⟨fun _ => hmem, by simp [MwResponse.isRedirect]⟩
    · refine ⟨fun _ => ?_, by simp [MwResponse.isRedirect]⟩
      simp [MwResponse.headers, throttledHeaders]
    · exact ⟨by simp [MwResponse.isRedirect], fun _ => by
        simp [MwResponse.headers]⟩
  have hv1 : (∃ h, middleware req env = .next h ∧
      ("X-Request-ID".data, env.requestId) ∈ h) ∨
      middleware req env = .json 429 (throttledHeaders env) (throttledBody env) ∨
      (∃ u, middleware req env = .redirect u) := by
    unfold middleware
    by_cases hapi : jsStartsWith req.pathname "/api/".data = true
    · by_cases hal : env.rl.allowed = true
      · simp only [hapi, if_true, hal, Bool.not_true, Bool.false_eq_true, if_false]
        rcases routeV1_pass_or_redirect req env
            (.next [("X-Request-ID".data, env.requestId),
                    ("X-RateLimit-Limit".data, "100".data),
                    ("X-RateLimit-Remaining".data, intToJStr env.rl.remaining),
                    ("X-RateLimit-Reset".data, intToJStr env.rl.resetTime)]) with
          hcase | ⟨u, hcase⟩
        · exact Or.inl ⟨_, hcase, by simp⟩
        · exact Or.inr (Or.inr ⟨u, hcase⟩)
      · replace hal : env.rl.allowed = false := by
          cases h : env.rl.allowed
          · rfl
          · exact absurd h hal
        simp [hapi, hal]
    · replace hapi : jsStartsWith req.pathname "/api/".data = false := by
        cases h : jsStartsWith req.pathname "/api/".data
        · rfl
        · exact absurd h hapi
      simp only [hapi, Bool.false_eq_true, if_false]
      rcases routeV1_pass_or_redirect req env
          (.next [("X-Request-ID".data, env.requestId)]) with hcase | ⟨u, hcase⟩
      · exact Or.inl ⟨_, hcase, by simp⟩
      · exact Or.inr (Or.inr ⟨u, hcase⟩)
  obtain ⟨g1, g2⟩ := hmain _ hv1
  refine ⟨g1, g2, ?_, ?_⟩
  · intro hrf
    have hv2 : (∃ h, middlewareV2 req env = .next h ∧
        ("X-Request-ID".data, env.requestId) ∈ h) ∨
        middlewareV2 req env = .json 429 (throttledHeaders env) (throttledBody env) ∨
        (∃ u, middlewareV2 req env = .redirect u) := by
      have hred : middlewareV2 req env =
          routeV2 req env
            (.next [("X-Request-ID".data, env.requestId),
                    ("X-RateLimit-Limit".data, "100".data),
                    ("X-RateLimit-Remaining".data, intToJStr env.rl.remaining),
                    ("X-RateLimit-Reset".data, intToJStr env.rl.resetTime)]) ∨
          middlewareV2 req env =
            routeV2 req env (.next [("X-Request-ID".data, env.requestId)]) ∨
          middlewareV2 req env =
            .json 429 (throttledHeaders env) (throttledBody env) := by
        unfold middlewareV2
        by_cases hapi : jsStartsWith req.pathname "/api/".data = true
        · by_cases hal : env.rl.allowed = true
          · exact Or.inl (by simp [hapi, hal, hrf])
          · replace hal : env.rl.allowed = false := by
              cases h : env.rl.allowed
              · rfl
              · exact absurd h hal
            exact Or.inr (Or.inr (by simp [hapi, hal]))
        · replace hapi : jsStartsWith req.pathname "/api/".data = false := by
            cases h : jsStartsWith req.pathname "/api/".data
            · rfl
            · exact absurd h hapi
          exact Or.inr (Or.inl (by simp [hapi, hrf]))
      rcases hred with heq | heq | heq
      · rcases routeV2_pass_or_redirect req env
            (.next [("X-Request-ID".data, env.requestId),
                    ("X-RateLimit-Limit".data, "100".data),
                    ("X-RateLimit-Remaining".data, intToJStr env.rl.remaining),
                    ("X-RateLimit-Reset".data, intToJStr env.rl.resetTime)]) with
          hcase | ⟨u, hcase⟩
        · exact Or.inl ⟨_, heq.trans hcase, by simp⟩
        · exact Or.inr (Or.inr ⟨u, heq.trans hcase⟩)
      · rcases routeV2_pass_or_redirect req env
            (.next [("X-Request-ID".data, env.requestId)]) with hcase | ⟨u, hcase⟩
        · exact Or.inl ⟨_, heq.trans hcase, by simp⟩
        · exact Or.inr (Or.inr ⟨u, heq.trans hcase⟩)
      · exact Or.inr (Or.inl heq)
    exact hmain _ hv2
  · intro hrf
    have hred : middlewareV2 req env = routeV2 req env (.next []) ∨
        middlewareV2 req env =
          .json 429 (throttledHeaders env) (throttledBody env) := by
      unfold middlewareV2
      by_cases hapi : jsStartsWith req.pathname "/api/".data = true
      · by_cases hal : env.rl.allowed = true
        · exact Or.inl (by simp [hapi, hal, hrf])
        · replace hal : env.rl.allowed = false := by
            cases h : env.rl.allowed
            · rfl
            · exact absurd h hal
          exact Or.inr (by simp [hapi, hal])
      · replace hapi : jsStartsWith req.pathname "/api/".data = false := by
          cases h : jsStartsWith req.pathname "/api/".data
          · rfl
          · exact absurd h hapi
        exact Or.inl (by simp [hapi, hrf])
    rcases hred with heq | heq
    · rcases routeV2_pass_or_redirect req env (.next []) with hcase | ⟨u, hcase⟩
      · exact Or.inr (Or.inr (heq.trans hcase))
      · exact Or.inl (by rw [heq, hcase]; rfl)
    · exact Or.inr (Or.inl heq)

theorem c5_request_id_header_witness :
    (middleware ⟨"/about".data, []⟩
      ⟨"rid7".data, ⟨true, 99, 0⟩, 0, none, none, false⟩).isRedirect = false ∧
    ("X-Request-ID".data, "rid7".data) ∈
      (middleware ⟨"/about".data, []⟩
        ⟨"rid7".data, ⟨true, 99, 0⟩, 0, none, none, false⟩).headers ∧
    ((middlewareV2 ⟨"/about".data, []⟩
        ⟨"rid7".data, ⟨true, 99, 0⟩, 0, none, none, true⟩).isRedirect = true ∨
      middlewareV2 ⟨"/about".data, []⟩
          ⟨"rid7".data, ⟨true, 99, 0⟩, 0, none, none, true⟩ =
        .json 429
          (throttledHeaders ⟨"rid7".data, ⟨true, 99, 0⟩, 0, none, none, true⟩)
          (throttledBody ⟨"rid7".data, ⟨true, 99, 0⟩, 0, none, none, true⟩) ∨
      middlewareV2 ⟨"/about".data, []⟩
          ⟨"rid7".data, ⟨true, 99, 0⟩, 0, none, none, true⟩ = .next []) :=
  ⟨by decide,
    (c5_request_id_header ⟨"/about".data, []⟩
      ⟨"rid7".data, ⟨true, 99, 0⟩, 0, none, none, false⟩).1 (by decide),
    (c5_request_id_header ⟨"/about".data, []⟩
      ⟨"rid7".data, ⟨true, 99, 0⟩, 0, none, none, true⟩).2.2.2 rfl⟩

/-- C6: every error thrown by or returned from the remote calls is absorbed
locally: `getCurrentUser` returns null on an auth error or exception, and
`getCurrentProfile` returns null on a profile-query error or exception (and
on an auth failure, through `getCurrentUser`). -/
theorem c6_errors_degrade_to_null :
    (∀ c : JsCall GetUserData,
      (c = .thrown ∨ ∃ d e, c = .ok d ∧ d.error = some e) →
      getCurrentUser c = none) ∧
    (∀ (a : JsCall GetUserData) (p : JsCall ProfileQueryResult),
      (p = .thrown ∨ ∃ r e, p = .ok r ∧ r.error = some e) →
      getCurrentProfile a p = none) ∧
    (∀ (a : JsCall GetUserData) (p : JsCall ProfileQueryResult),
      (a = .thrown ∨ ∃ d e, a = .ok d ∧ d.error = some e) →
      getCurrentProfile a p = none) := by
  refine ⟨?_, ?_, ?_⟩
  · rintro c (rfl | ⟨d, e, rfl, herr⟩)
    · rfl
    · simp [getCurrentUser, herr]
  · rintro a p (rfl | ⟨r, e, rfl, herr⟩)
    · unfold getCurrentProfile
      cases getCurrentUser a <;> rfl
    · unfold getCurrentProfile
      cases getCurrentUser a <;> simp [herr]
  · rintro a p (rfl | ⟨d, e, rfl, herr⟩)
    · rfl
    · simp [getCurrentProfile, getCurrentUser, herr]

theorem c6_errors_degrade_to_null_witness :
    getCurrentUser .thrown = none ∧
    getCurrentUser (.ok ⟨some "u3".data, some "boom".data⟩) = none ∧
    getCurrentProfile (.ok ⟨some "u3".data, none⟩) .thrown = none ∧
    getCurrentProfile .thrown (.ok ⟨some [], none⟩) = none :=
  ⟨c6_errors_degrade_to_null.1 .thrown (Or.inl rfl),
    c6_errors_degrade_to_null.1 (.ok ⟨some "u3".data, some "boom".data⟩)
      (Or.inr ⟨_, _, rfl, rfl⟩),
    c6_errors_degrade_to_null.2.1 (.ok ⟨some "u3".data, none⟩) .thrown
      (Or.inl rfl),
    c6_errors_degrade_to_null.2.2 .thrown (.ok ⟨some [], none⟩) (Or.inl rfl)⟩

/-- C7 counterexample: with both environment variables present but the URL
set to the empty string, `createAdminClient` still throws, against the
claim that it returns a client whenever both variables are present. -/
theorem c7_counterexample :
    (⟨some [], some "key1".data⟩ : AdminEnv).supabaseUrl ≠ none ∧
    (⟨some [], some "key1".data⟩ : AdminEnv).serviceRoleKey ≠ none ∧
    adminClientThrows ⟨some [], some "key1".data⟩ = true := by decide

/-- C7 amended: `createAdminClient` throws exactly when the provider URL or
the service-role key variable is unset or set to the empty string; when both
are set to non-empty strings it returns the client built from them. -/
theorem c7_admin_client_throws :
    (∀ env : AdminEnv, adminClientThrows env = true ↔
      (env.supabaseUrl = none ∨ env.supabaseUrl = some [] ∨
       env.serviceRoleKey = none ∨ env.serviceRoleKey = some [])) ∧
    (∀ url key : JStr, url ≠ [] → key ≠ [] →
      createAdminClient ⟨some url, some key⟩ = .ok ⟨url, key⟩) := by
  constructor
  · intro env
    obtain ⟨u, k⟩ := env
    unfold adminClientThrows createAdminClient jsFalsyStr
    cases u with
    | none => simp
    | some su =>
      cases k with
      | none => simp
      | some sk =>
        by_cases hu : su = [] <;> by_cases hk : sk = [] <;> simp [hu, hk]
  · intro url key hu hk
    unfold createAdminClient jsFalsyStr
    simp [hu, hk]

theorem c7_admin_client_throws_witness :
    adminClientThrows ⟨none, some "key1".data⟩ = true ∧
    createAdminClient ⟨some "https:".data, some "key1".data⟩ =
      .ok ⟨"https:".data, "key1".data⟩ :=
  ⟨(c7_admin_client_throws.1 ⟨none, some "key1".data⟩).mpr (Or.inl rfl),
    c7_admin_client_throws.2 "https:".data "key1".data (by decide) (by decide)⟩

/-- Membership in the embedded `for`-loop range. -/
theorem mem_intRange (s e x : Int) : x ∈ intRange s e ↔ s ≤ x ∧ x ≤ e := by
  simp only [intRange, List.mem_map, List.mem_range]
  constructor
  · rintro ⟨i, hi, rfl⟩
    omega
  · rintro ⟨h1, h2⟩
    exact ⟨(x - s).toNat, by omega, by omega⟩

theorem length_intRange (s e : Int) : (intRange s e).length = (e + 1 - s).toNat := by
  rw [intRange, List.length_map, List.length_range]

/-- C8: for `totalPages ≥ 1` and `1 ≤ currentPage ≤ totalPages`, the page
window is the consecutive range `[start, end]` with `1 ≤ start ≤ currentPage
≤ end ≤ totalPages` and at most five pages. -/
theorem c8_page_window (t c : Int) (ht : 1 ≤ t) (hc1 : 1 ≤ c) (hc2 : c ≤ t) :
    ∃ s e, 1 ≤ s ∧ s ≤ c ∧ c ≤ e ∧ e ≤ t ∧ e - s < 5 ∧
      (∀ x, x ∈ renderPageNumbers t c ↔ s ≤ x ∧ x ≤ e) ∧
      (renderPageNumbers t c).length ≤ 5 := by
  have h52 : maxVisible / 2 = 2 := by decide
  refine ⟨rpStart t c, rpEnd t c, ?_⟩
  have hbounds : 1 ≤ rpStart t c ∧ rpStart t c ≤ c ∧ c ≤ rpEnd t c ∧
      rpEnd t c ≤ t ∧ rpEnd t c - rpStart t c < 5 := by
    unfold rpStart rpEnd rpStart0 maxVisible
    rw [show ((5 : Int) / 2) = 2 from by decide]
    split <;> omega
  obtain ⟨h1, h2, h3, h4, h5⟩ := hbounds
  refine ⟨h1, h2, h3, h4, h5, ?_, ?_⟩
  · intro x
    exact mem_intRange _ _ x
  · rw [renderPageNumbers, length_intRange]
    omega

theorem c8_page_window_witness :
    (1 : Int) ≤ 10 ∧ (1 : Int) ≤ 7 ∧ (7 : Int) ≤ 10 ∧
    ∃ s e, 1 ≤ s ∧ s ≤ 7 ∧ 7 ≤ e ∧ e ≤ 10 ∧ e - s < 5 ∧
      (∀ x, x ∈ renderPageNumbers 10 7 ↔ s ≤ x ∧ x ≤ e) ∧
      (renderPageNumbers 10 7).length ≤ 5 :=
  ⟨by decide, by decide, by decide,
    c8_page_window 10 7 (by decide) (by decide) (by decide)⟩

/-- C9: `countNegativeAnswers` counts the answers that do not normalise to
true; `onSubmit` saves immediately, without a `committed` flag, exactly when
that count is zero, and otherwise only shows the modal with the pending
normalised payload, which the confirm handler then saves with `committed`
set to true. -/
theorem c9_five_question_gate :
    (∀ d, countNegativeAnswers d = ((fiveQValues d).map toBool).count false) ∧
    (∀ d, onSubmit d = .saved ⟨normalizePayload d, none⟩ ↔
      countNegativeAnswers d = 0) ∧
    (∀ d, 0 < countNegativeAnswers d →
      onSubmit d = .modalShown (normalizePayload d) (countNegativeAnswers d) ∧
      handleModalContinue (normalizePayload d) = ⟨normalizePayload d, some true⟩) := by
  refine ⟨?_, ?_, ?_⟩
  · intro d
    cases h1 : toBool d.q1 <;> cases h2 : toBool d.q2 <;>
      cases h3 : toBool d.q3 <;> cases h4 : toBool d.q4 <;>
      cases h5 : toBool d.q5 <;>
      simp [countNegativeAnswers, fiveQValues, h1, h2, h3, h4, h5,
        List.count_cons, List.count_nil]
  · intro d
    unfold onSubmit
    by_cases h : countNegativeAnswers d > 0
    · rw [if_pos h]
      constructor
      · intro hcon; cases hcon
      · intro h0; omega
    · rw [if_neg h]
      simp
      omega
  · intro d h
    unfold onSubmit
    rw [if_pos h]
    exact ⟨rfl, rfl⟩

theorem c9_five_question_gate_witness :
    (0 : Nat) <
      countNegativeAnswers ⟨.str "false".data, .str "true".data,
        .str "true".data, .str "true".data, .str "true".data⟩ ∧
    (onSubmit ⟨.str "false".data, .str "true".data, .str "true".data,
        .str "true".data, .str "true".data⟩ =
      .modalShown
        (normalizePayload ⟨.str "false".data, .str "true".data,
          .str "true".data, .str "true".data, .str "true".data⟩)
        (countNegativeAnswers ⟨.str "false".data, .str "true".data,
          .str "true".data, .str "true".data, .str "true".data⟩) ∧
      handleModalContinue
          (normalizePayload ⟨.str "false".data, .str "true".data,
            .str "true".data, .str "true".data, .str "true".data⟩) =
        ⟨normalizePayload ⟨.str "false".data, .str "true".data,
          .str "true".data, .str "true".data, .str "true".data⟩, some true⟩) :=
  ⟨by decide,
    c9_five_question_gate.2.2
      ⟨.str "false".data, .str "true".data, .str "true".data,
        .str "true".data, .str "true".data⟩ (by decide)⟩

/-- C10: evaluating `calcAge` at a birth date whose birthday has not yet
occurred in the current year throws (the `age--` statement assigns to the
`const` binding `age`), instead of returning the decremented age the claim
describes; on the already-had-birthday path it returns the year
difference. -/
theorem c10_calc_age_const_bug :
    calcAge (.valid ⟨2000, 11, 25⟩) ⟨2026, 9, 12⟩ = .error .typeError ∧
    calcAge (.valid ⟨2000, 2, 1⟩) ⟨2026, 9, 12⟩ = .ok (some 26) ∧
    calcAge .absent ⟨2026, 9, 12⟩ = .ok none ∧
    calcAge .invalid ⟨2026, 9, 12⟩ = .ok none :=
  ⟨rfl, rfl, rfl, rfl⟩

end Roomah
